import Mathlib

/-
Verification of the nextinbox-xmail-backend email dispatch pipeline
(src/main.go).  The Go functions sendSingleEmail, getUserIDFromKey and
SendEmailsHandler are shallowly embedded as pure Lean functions over an
explicit database state; external collaborators (the Supabase data store,
the SMTP transport, the net/url parser, the time package and the
text/template engine) are modelled by explicit outcome parameters or by
small executable models, as documented on each definition.
-/

namespace NextInBox

/-! ## Model of the external net/url parser (collaborator) -/

/-- Scheme and hostname of a parsed URL: the two components the origin
check in sendSingleEmail reads (URL.Scheme and URL.Hostname()). -/
structure URLParts where
  scheme : String
  host : String
deriving DecidableEq, Repr

/-- ASCII control characters make net/url.Parse fail. -/
def isCtl (c : Char) : Bool := c.toNat < 32 || c.toNat == 127

/-- Whether the pattern (second argument) starts the list. -/
def startsWithL : List Char → List Char → Bool
  | _, [] => true
  | [], _ :: _ => false
  | c :: cs, d :: ds => c == d && startsWithL cs ds

/-- Whether the pattern ends the list. -/
def endsWithL (cs pat : List Char) : Bool := startsWithL cs.reverse pat.reverse

/-- Split at the first occurrence of the three-character authority
separator of a URL, when present. -/
def breakOnArrow : List Char → Option (List Char × List Char)
  | [] => none
  | c :: cs =>
    if startsWithL (c :: cs) [':', '/', '/'] then some ([], cs.drop 2)
    else
      match breakOnArrow cs with
      | none => none
      | some (pre, post) => some (c :: pre, post)

/-- strings.Split on a comma: the empty string yields one empty field. -/
def splitOnComma : List Char → List (List Char)
  | [] => [[]]
  | c :: cs =>
    if c == ',' then [] :: splitOnComma cs
    else
      match splitOnComma cs with
      | [] => [[c]]
      | g :: gs => (c :: g) :: gs

/-- Whitespace for the model of strings.TrimSpace (the ASCII part of the
Unicode class the Go function trims). -/
def isSpaceChar (c : Char) : Bool :=
  c == ' ' || c == '\t' || c == '\n' || c == '\r' || c == '\x0b' || c == '\x0c'

/-- Model of strings.TrimSpace. -/
def trimL (cs : List Char) : List Char :=
  ((cs.dropWhile isSpaceChar).reverse.dropWhile isSpaceChar).reverse

/-- Valid URL scheme per net/url: leading letter, then letters, digits,
plus, minus or dot. -/
def validSchemeChars (cs : List Char) : Bool :=
  match cs with
  | [] => false
  | c :: rest => c.isAlpha && rest.all (fun d => d.isAlphanum || d == '+' || d == '-' || d == '.')

/-- Characters of a list up to (excluding) the first stop character. -/
def takeUntilStop (stop : List Char) : List Char → List Char
  | [] => []
  | c :: cs => if stop.contains c then [] else c :: takeUntilStop stop cs

/-- Hostname of an authority component: userinfo before the last at-sign is
dropped, a bracketed IPv6 literal keeps the part inside the brackets, and
otherwise the port after a colon is stripped. -/
def hostOfAuthority (auth : List Char) : String :=
  let hostport := (auth.reverse.takeWhile (fun c => c != '@')).reverse
  match hostport with
  | '[' :: rest => String.mk (rest.takeWhile (fun c => c != ']'))
  | _ => String.mk (hostport.takeWhile (fun c => c != ':'))

/-- Model of net/url.Parse restricted to the fields the origin check uses.
Parsing fails on ASCII control characters and on a malformed scheme in
front of an authority, as the Go parser does; a string without an
authority separator is treated as a bare path, yielding empty scheme and
host.  The scheme is lowercased, the host is kept as written. -/
def parseURL (s : String) : Option URLParts :=
  let cs := s.toList
  if cs.any isCtl then none
  else
    match breakOnArrow cs with
    | none => some ⟨"", ""⟩
    | some (schemeCs, rest) =>
      if validSchemeChars schemeCs then
        let auth := takeUntilStop ['/', '?', '#'] rest
        some ⟨String.mk (schemeCs.map Char.toLower), hostOfAuthority auth⟩
      else none

/-! ## Model of the external time package (collaborator) -/

/-- Wall-clock fields of a Go time.Time value as produced by parsing an
RFC 3339 string, together with the zone offset east of UTC in minutes. -/
structure GoTime where
  year : Nat
  month : Nat
  day : Nat
  hour : Nat
  minute : Nat
  second : Nat
  offMinutes : Int
deriving DecidableEq, Repr

def isLeapYear (y : Nat) : Bool := (y % 4 == 0 && y % 100 != 0) || y % 400 == 0

def daysInMonth (y m : Nat) : Nat :=
  if m == 2 then (if isLeapYear y then 29 else 28)
  else if m == 4 || m == 6 || m == 9 || m == 11 then 30
  else 31

/-- Fixed-width decimal number reader: exactly n digits. -/
def readDigits : Nat → Nat → List Char → Option (Nat × List Char)
  | 0, acc, cs => some (acc, cs)
  | _ + 1, _, [] => none
  | n + 1, acc, c :: cs =>
    if c.isDigit then readDigits n (acc * 10 + (c.toNat - 48)) cs else none

def expectChar (c : Char) : List Char → Option (List Char)
  | [] => none
  | d :: cs => if d == c then some cs else none

/-- Optional fractional-second part: a decimal separator must be followed
by at least one digit; the digits are discarded (the formatDate helper
never prints them). -/
def dropFrac (cs : List Char) : Option (List Char) :=
  match cs with
  | c :: rest =>
    if c == '.' || c == ',' then
      match rest with
      | d :: _ => if d.isDigit then some (rest.dropWhile Char.isDigit) else none
      | [] => none
    else some cs
  | [] => some cs

/-- Zone part of an RFC 3339 string: the letter Z or a signed hh:mm
offset, which must end the string. -/
def parseOffset : List Char → Option Int
  | ['Z'] => some 0
  | c :: cs =>
    if c == '+' || c == '-' then
      match readDigits 2 0 cs with
      | some (hh, rest1) =>
        match expectChar ':' rest1 with
        | some rest2 =>
          match readDigits 2 0 rest2 with
          | some (mm, []) =>
            if hh ≤ 23 && mm ≤ 59 then
              some (if c == '-' then -(hh * 60 + mm : Int) else (hh * 60 + mm : Int))
            else none
          | _ => none
        | none => none
      | none => none
    else none
  | [] => none

/-- Model of time.Parse with the time.RFC3339 layout: full date, the
letter T, full time, optional fractional seconds, then Z or a numeric
offset; calendar and clock fields are range checked (with leap years). -/
def rfc3339Parse (s : String) : Option GoTime := do
  let cs := s.toList
  let (y, cs) ← readDigits 4 0 cs
  let cs ← expectChar '-' cs
  let (mo, cs) ← readDigits 2 0 cs
  let cs ← expectChar '-' cs
  let (d, cs) ← readDigits 2 0 cs
  let cs ← expectChar 'T' cs
  let (h, cs) ← readDigits 2 0 cs
  let cs ← expectChar ':' cs
  let (mi, cs) ← readDigits 2 0 cs
  let cs ← expectChar ':' cs
  let (se, cs) ← readDigits 2 0 cs
  let cs ← dropFrac cs
  let off ← parseOffset cs
  if 1 ≤ mo && mo ≤ 12 && 1 ≤ d && d ≤ daysInMonth y mo && h ≤ 23 && mi ≤ 59 && se ≤ 59 then
    some ⟨y, mo, d, h, mi, se, off⟩
  else none

def padZero2 (n : Nat) : String := if n < 10 then "0" ++ toString n else toString n

def padZero4 (n : Nat) : String :=
  if n < 10 then "000" ++ toString n
  else if n < 100 then "00" ++ toString n
  else if n < 1000 then "0" ++ toString n
  else toString n

/-- The formatDate helper from the funcMap in sendSingleEmail
(src/main.go lines 256-259): Go layout "2006-01-02 15:04:05". -/
def formatDate (t : GoTime) : String :=
  padZero4 t.year ++ "-" ++ padZero2 t.month ++ "-" ++ padZero2 t.day ++ " " ++
    padZero2 t.hour ++ ":" ++ padZero2 t.minute ++ ":" ++ padZero2 t.second

/-! ## Data model (src/main.go structs and the tables they are read from) -/

/-- Row of the profile table, as read by getUserIDFromKey (user_key,
user_id) and by the rate-limit select (rate_limit). -/
structure ProfileRow where
  user_id : String
  user_key : String
  rate_limit : Int
deriving DecidableEq, Repr

/-- The Service struct (src/main.go lines 28-36). -/
structure Service where
  service_id : String
  user_id : String
  host_address : String
  port : Int
  email_id : String
  password : String
  cors_origin : String
deriving DecidableEq, Repr

/-- Row of the templates table, restricted to the selected columns
content and subject plus the filter columns. -/
structure TemplateRow where
  template_id : String
  user_id : String
  content : String
  subject : String
deriving DecidableEq, Repr

/-- The LogEntry struct (src/main.go lines 139-145). -/
structure LogEntry where
  user_id : String
  service_id : String
  template_id : String
  status : String
  message : String
deriving DecidableEq, Repr

/-- The EmailEntry struct (src/main.go lines 147-154). -/
structure EmailEntry where
  user_id : String
  service_id : String
  template_id : String
  email_address : String
  name : String
  phone_number : String
deriving DecidableEq, Repr

/-- The five tables the pipeline touches, as one explicit state. -/
structure DB where
  profiles : List ProfileRow
  services : List Service
  templates : List TemplateRow
  logs : List LogEntry
  emails : List EmailEntry
deriving DecidableEq, Repr

/-- A value of the open parameter map (Go map[string]interface{}): the
pipeline distinguishes strings (the date type assertion), parsed times
(written back by the date step) and everything else. -/
inductive ParamValue where
  | str : String → ParamValue
  | time : GoTime → ParamValue
  | other : ParamValue
deriving DecidableEq, Repr

/-- The Parameters map, as an association list. -/
abbrev Params := List (String × ParamValue)

def getParam (ps : Params) (k : String) : Option ParamValue :=
  (ps.find? (fun p => p.1 == k)).map (fun p => p.2)

/-- Go map assignment: replace the value under an existing key, append
otherwise. -/
def setParam (ps : Params) (k : String) (v : ParamValue) : Params :=
  if ps.any (fun p => p.1 == k) then ps.map (fun p => if p.1 == k then (k, v) else p)
  else ps ++ [(k, v)]

/-- The Recipient struct (src/main.go lines 47-50). -/
structure Recipient where
  email_address : String
  name : String
deriving DecidableEq, Repr

/-- The EmailRequest struct (src/main.go lines 39-45). -/
structure EmailRequest where
  user_key : String
  service_id : String
  template_id : String
  recipients : List Recipient
  parameters : Params
deriving DecidableEq, Repr

/-- The templateContext map handed to tmpl.Execute (src/main.go lines
271-274): the recipient and the (possibly date-normalised) parameters. -/
structure RenderCtx where
  recipient : Recipient
  params : Params
deriving DecidableEq, Repr

/-- Outcomes of the external calls one sendSingleEmail invocation makes:
for each fallible data-store call and for smtp.SendMail, none means the
call succeeds and some e means it fails with error text e.  tmplParse and
tmplExec model the text/template engine compiling and executing the
stored template content. -/
structure Env where
  profileKeyErr : Option String
  rateLimitErr : Option String
  serviceErr : Option String
  templateErr : Option String
  tmplParse : String → Option String
  tmplExec : String → RenderCtx → Except String String
  smtpErr : Option String
  quotaUpdateErr : Option String
  logInsertErr : Option String
  emailSelectErr : Option String
  emailInsertErr : Option String

/-! ## The pipeline (sendSingleEmail, src/main.go lines 157-377) -/

/-- getUserIDFromKey (src/main.go lines 117-136): select user_id from
profile where user_key matches; backend failure and the empty result are
distinct errors; otherwise the first row wins. -/
def getUserIDFromKey (backendErr : Option String) (profiles : List ProfileRow)
    (userKey : String) : Except String String :=
  match backendErr with
  | some e => .error ("failed to fetch profile: " ++ e)
  | none =>
    match profiles.filter (fun p => p.user_key == userKey) with
    | [] => .error ("no profile found for user_key: " ++ userKey)
    | p :: _ => .ok p.user_id

/-- The allow-list loop of the origin check (src/main.go lines 207-226):
split on commas, trim each entry, skip entries that fail to parse, and
admit on the first entry with the same scheme whose hostname equals the
origin hostname or is a dot-separated suffix of it. -/
def originMatchesList (po : URLParts) (corsOrigin : String) : Bool :=
  (splitOnComma corsOrigin.toList).any (fun entry =>
    match parseURL (String.mk (trimL entry)) with
    | none => false
    | some pa =>
      pa.scheme == po.scheme &&
        (po.host == pa.host || endsWithL po.host.toList ('.' :: pa.host.toList)))

/-- The full origin check of sendSingleEmail (src/main.go lines 199-230):
the incoming origin is parsed first (failure is an error even when no
allow-list is configured), then an empty cors_origin skips the check and
a non-empty one runs the allow-list loop.  none means admitted, some e is
the error returned. -/
def originCheck (corsOrigin : String) (origin : String) : Option String :=
  match parseURL origin with
  | none => some ("invalid origin: " ++ origin)
  | some po =>
    if corsOrigin == "" then none
    else if originMatchesList po corsOrigin then none
    else some ("origin not allowed: " ++ origin)

/-- The date-parameter step (src/main.go lines 232-238): a string under
the key date is parsed as RFC 3339 and written back as a time value;
parse failure aborts the recipient.  The Go error text of time.Parse is
abbreviated to its stable head. -/
def dateStep (ps : Params) : Except String Params :=
  match getParam ps "date" with
  | some (ParamValue.str raw) =>
    match rfc3339Parse raw with
    | none => .error ("invalid date format: parsing time " ++ raw)
    | some t => .ok (setParam ps "date" (ParamValue.time t))
  | _ => .ok ps

/-- Data assembled once every validation and rendering step has
succeeded, immediately before the SMTP call. -/
structure PrepOk where
  userID : String
  rateLimit : Int
  service : Service
  tmplRow : TemplateRow
  body : String
  ctx : RenderCtx
deriving Repr

/-- Result of the validation and rendering prefix of sendSingleEmail
(src/main.go lines 157-279), together with the observations needed by the
claims: the parameters after the date step, the resolved user, and the
service, template and render context once selected. -/
structure PrepOut where
  params : Params
  outcome : Except String PrepOk
  userID : Option String
  serviceUsed : Option Service
  templateUsed : Option TemplateRow
  renderCtx : Option RenderCtx

/-- Lines 157-279 of src/main.go: resolve identity, read and check the
rate limit, select the service, check the origin, normalise the date
parameter, select the template, compile and execute it.  Reads only the
profile, services and templates tables and writes nothing. -/
def prepare (env : Env) (profiles : List ProfileRow) (services : List Service)
    (templates : List TemplateRow) (req : EmailRequest) (recipient : Recipient)
    (origin : String) : PrepOut :=
  match getUserIDFromKey env.profileKeyErr profiles req.user_key with
  | .error e => ⟨req.parameters, .error ("invalid user_key: " ++ e), none, none, none, none⟩
  | .ok userID =>
    match env.rateLimitErr with
    | some e =>
      ⟨req.parameters, .error ("failed to fetch user rate limit: " ++ e),
        some userID, none, none, none⟩
    | none =>
      match profiles.filter (fun p => p.user_id == userID) with
      | [] =>
        ⟨req.parameters, .error "failed to fetch user rate limit: <nil>",
          some userID, none, none, none⟩
      | prof :: _ =>
        if prof.rate_limit ≤ 0 then
          ⟨req.parameters, .error "rate limit exceeded", some userID, none, none, none⟩
        else
          match env.serviceErr with
          | some _ => ⟨req.parameters, .error "invalid service_id", some userID, none, none, none⟩
          | none =>
            match services.filter (fun s =>
                s.service_id == req.service_id && s.user_id == userID) with
            | [] => ⟨req.parameters, .error "invalid service_id", some userID, none, none, none⟩
            | service :: _ =>
              match originCheck service.cors_origin origin with
              | some e => ⟨req.parameters, .error e, some userID, some service, none, none⟩
              | none =>
                match dateStep req.parameters with
                | .error e => ⟨req.parameters, .error e, some userID, some service, none, none⟩
                | .ok ps2 =>
                  match env.templateErr with
                  | some _ =>
                    ⟨ps2, .error "invalid template_id", some userID, some service, none, none⟩
                  | none =>
                    match templates.filter (fun t =>
                        t.template_id == req.template_id && t.user_id == userID) with
                    | [] =>
                      ⟨ps2, .error "invalid template_id", some userID, some service, none, none⟩
                    | tp :: _ =>
                      match env.tmplParse tp.content with
                      | some e =>
                        ⟨ps2, .error ("template parsing error: " ++ e),
                          some userID, some service, some tp, none⟩
                      | none =>
                        let ctx : RenderCtx := ⟨recipient, ps2⟩
                        match env.tmplExec tp.content ctx with
                        | .error e =>
                          ⟨ps2, .error ("template execution error: " ++ e),
                            some userID, some service, some tp, some ctx⟩
                        | .ok body =>
                          ⟨ps2, .ok ⟨userID, prof.rate_limit, service, tp, body, ctx⟩,
                            some userID, some service, some tp, some ctx⟩

/-- Observable result of one sendSingleEmail call: the database after the
call, the parameters map after the call, the returned error (none is the
nil return), and which external writes were issued, whether or not the
store accepted them. -/
structure RunOut where
  db : DB
  params : Params
  err : Option String
  userID : Option String
  serviceUsed : Option Service
  templateUsed : Option TemplateRow
  renderCtx : Option RenderCtx
  smtpCalls : Nat
  quotaWrite : Option (String × Int)
  logIssued : Option LogEntry
  dedupKey : Option (String × String × String)
  emailInsertIssued : Option EmailEntry

/-- Lines 299-377 of src/main.go given the prepared data: the SMTP
attempt, the conditional quota update (whose error is assigned to the
same err variable the following code inspects, exactly as the Go does),
the unconditional log insert, the early error return, and the dedup-
checked history insert. -/
def finishSend (env : Env) (db : DB) (req : EmailRequest) (recipient : Recipient) :
    PrepOut → RunOut
  | ⟨ps, .error e, u, sv, tp, rc⟩ =>
    { db := db, params := ps, err := some e, userID := u, serviceUsed := sv,
      templateUsed := tp, renderCtx := rc, smtpCalls := 0, quotaWrite := none,
      logIssued := none, dedupKey := none, emailInsertIssued := none }
  | ⟨ps, .ok ok, _, _, _, _⟩ =>
    match env.smtpErr with
    | some e =>
      let le : LogEntry := ⟨ok.userID, req.service_id, req.template_id, "failed", e⟩
      { db := { db with logs := db.logs ++ (match env.logInsertErr with
                  | none => [le] | some _ => []) },
        params := ps, err := some ("email sending error: " ++ e),
        userID := some ok.userID, serviceUsed := some ok.service,
        templateUsed := some ok.tmplRow, renderCtx := some ok.ctx, smtpCalls := 1,
        quotaWrite := none, logIssued := some le, dedupKey := none,
        emailInsertIssued := none }
    | none =>
      let newVal : Int := ok.rateLimit - 1
      match env.quotaUpdateErr with
      | some ue =>
        let le : LogEntry := ⟨ok.userID, req.service_id, req.template_id, "failed", ue⟩
        { db := { db with logs := db.logs ++ (match env.logInsertErr with
                    | none => [le] | some _ => []) },
          params := ps, err := some ("email sending error: " ++ ue),
          userID := some ok.userID, serviceUsed := some ok.service,
          templateUsed := some ok.tmplRow, renderCtx := some ok.ctx, smtpCalls := 1,
          quotaWrite := some (ok.userID, newVal), logIssued := some le,
          dedupKey := none, emailInsertIssued := none }
      | none =>
        let profiles1 := db.profiles.map (fun p =>
          if p.user_id == ok.userID then { p with rate_limit := newVal } else p)
        let le : LogEntry := ⟨ok.userID, req.service_id, req.template_id, "success",
          "Email sent to " ++ recipient.email_address⟩
        let logs1 := db.logs ++ (match env.logInsertErr with
          | none => [le] | some _ => [])
        match env.emailSelectErr with
        | some _ =>
          { db := { db with profiles := profiles1, logs := logs1 },
            params := ps, err := none, userID := some ok.userID,
            serviceUsed := some ok.service, templateUsed := some ok.tmplRow,
            renderCtx := some ok.ctx, smtpCalls := 1,
            quotaWrite := some (ok.userID, newVal), logIssued := some le,
            dedupKey := some (ok.userID, recipient.email_address, req.template_id),
            emailInsertIssued := none }
        | none =>
          match db.emails.filter (fun m =>
              m.user_id == ok.userID && m.email_address == recipient.email_address &&
                m.template_id == req.template_id) with
          | _ :: _ =>
            { db := { db with profiles := profiles1, logs := logs1 },
              params := ps, err := none, userID := some ok.userID,
              serviceUsed := some ok.service, templateUsed := some ok.tmplRow,
              renderCtx := some ok.ctx, smtpCalls := 1,
              quotaWrite := some (ok.userID, newVal), logIssued := some le,
              dedupKey := some (ok.userID, recipient.email_address, req.template_id),
              emailInsertIssued := none }
          | [] =>
            let ee : EmailEntry := ⟨ok.userID, req.service_id, req.template_id,
              recipient.email_address, recipient.name, ""⟩
            let emails1 := db.emails ++ (match env.emailInsertErr with
              | none => [ee] | some _ => [])
            { db := { db with profiles := profiles1, logs := logs1, emails := emails1 },
              params := ps, err := none, userID := some ok.userID,
              serviceUsed := some ok.service, templateUsed := some ok.tmplRow,
              renderCtx := some ok.ctx, smtpCalls := 1,
              quotaWrite := some (ok.userID, newVal), logIssued := some le,
              dedupKey := some (ok.userID, recipient.email_address, req.template_id),
              emailInsertIssued := some ee }

/-- sendSingleEmail (src/main.go lines 157-377) for one recipient:
validation and rendering, then dispatch and persistence. -/
def sendSingleEmail (env : Env) (db : DB) (req : EmailRequest) (recipient : Recipient)
    (origin : String) : RunOut :=
  finishSend env db req recipient
    (prepare env db.profiles db.services db.templates req recipient origin)

/-! ## The handler (SendEmailsHandler, src/main.go lines 80-114) -/

/-- Per-recipient fan-out.  The goroutines of the Go handler share the
request object and the database; the model runs them in one completion
order, threading the shared state.  envOf gives each recipient the
outcomes of its own external calls. -/
def runRecipients (envOf : Nat → Env) (req : EmailRequest) (origin : String) :
    List Recipient → Nat → DB → Params → DB × Params × List (Recipient × Option String)
  | [], _, db, ps => (db, ps, [])
  | r :: rs, i, db, ps =>
    let out := sendSingleEmail (envOf i) db { req with parameters := ps } r origin
    let rest := runRecipients envOf req origin rs (i + 1) out.db out.params
    (rest.1, rest.2.1, (r, out.err) :: rest.2.2)

/-- The error strings collected from the error channel: one per failed
recipient, built exactly as in src/main.go line 97. -/
def recipientErrors (outs : List (Recipient × Option String)) : List String :=
  outs.filterMap (fun pr =>
    pr.2.map (fun e => "error sending to " ++ pr.1.email_address ++ ": " ++ e))

/-- Aggregate response of SendEmailsHandler. -/
structure HandlerOut where
  db : DB
  params : Params
  success : Bool
  errors : List String
  outs : List (Recipient × Option String)

/-- SendEmailsHandler (src/main.go lines 80-114) after a request body has
parsed: run every recipient, collect one error string per failure, and
report success exactly when no error was collected. -/
def SendEmailsHandler (envOf : Nat → Env) (db : DB) (req : EmailRequest)
    (origin : String) : HandlerOut :=
  let res := runRecipients envOf req origin req.recipients 0 db req.parameters
  let errs := recipientErrors res.2.2
  ⟨res.1, res.2.1, errs.isEmpty, errs, res.2.2⟩

/-! ## Reference origin-admission functions written from the spec -/

/-- One allow-list entry admitting an origin, per the spec words: same
scheme, and equal hostname or the origin hostname a dot-separated-suffix
subdomain of the entry hostname. -/
def refEntryMatch (po : URLParts) (entry : List Char) : Bool :=
  match parseURL (String.mk (trimL entry)) with
  | none => false
  | some pa =>
    pa.scheme == po.scheme &&
      (po.host == pa.host || endsWithL po.host.toList ('.' :: pa.host.toList))

/-- The origin-admission reference function in the order the claim states
it: an empty allow-list always admits; a non-empty allow-list is split on
commas and admits exactly when some entry matches; a malformed incoming
origin is denied. -/
def originRefLiteral (corsOrigin : String) (origin : String) : Bool :=
  if corsOrigin == "" then true
  else
    match parseURL origin with
    | none => false
    | some po => (splitOnComma corsOrigin.toList).any (fun entry => refEntryMatch po entry)

/-- The reference function amended to deny a malformed incoming origin
even when the allow-list is empty, matching the order of the code. -/
def originRefAmended (corsOrigin : String) (origin : String) : Bool :=
  match parseURL origin with
  | none => false
  | some po =>
    if corsOrigin == "" then true
    else (splitOnComma corsOrigin.toList).any (fun entry => refEntryMatch po entry)

/-! ## Derived observations used in claim statements -/

/-- Quota the pipeline reads for a user: the rate_limit of the first
profile row matching the user id (0 when no row exists). -/
def userQuota (profiles : List ProfileRow) (uid : String) : Int :=
  match profiles.filter (fun p => p.user_id == uid) with
  | [] => 0
  | p :: _ => p.rate_limit

/-- Number of email-history rows for a (user, recipient address,
template) triple. -/
def matchCount (emails : List EmailEntry) (uid em tid : String) : Nat :=
  (emails.filter (fun m =>
    m.user_id == uid && m.email_address == em && m.template_id == tid)).length

/-! ## Concrete fixtures for witnesses and counterexamples -/

/-- External calls all succeed; the template engine compiles everything
and renders a fixed body. -/
def envOk : Env :=
  { profileKeyErr := none, rateLimitErr := none, serviceErr := none,
    templateErr := none, tmplParse := fun _ => none,
    tmplExec := fun _ _ => .ok "rendered", smtpErr := none,
    quotaUpdateErr := none, logInsertErr := none, emailSelectErr := none,
    emailInsertErr := none }

def recA : Recipient := ⟨"alice@example.org", "Alice"⟩

def recB : Recipient := ⟨"bob@example.org", "Bob"⟩

def svc1 : Service := ⟨"s1", "u1", "smtp.example.org", 587, "mail@example.org", "pw", ""⟩

def tpl1 : TemplateRow := ⟨"t1", "u1", "Hello from the template", "Subject"⟩

def dbW : DB :=
  { profiles := [⟨"u1", "key1", 5⟩], services := [svc1], templates := [tpl1],
    logs := [], emails := [] }

def reqW : EmailRequest := ⟨"key1", "s1", "t1", [recA], []⟩

/-- Environment in which the SMTP dispatch succeeds but the following
rate-limit update is rejected by the data store. -/
def envQuotaFail : Env := { envOk with quotaUpdateErr := some "db update failed" }

/-- Request fixture with an unparseable date parameter. -/
def reqBadDate : EmailRequest :=
  ⟨"key1", "s1", "t1", [recA], [("date", ParamValue.str "nope")]⟩

/-- Request fixture with the date parameter of the claimed example. -/
def reqGoodDate : EmailRequest :=
  ⟨"key1", "s1", "t1", [recA], [("date", ParamValue.str "2023-12-31T00:00:00Z")]⟩

/-- Request fixture whose user key matches no profile row. -/
def reqBadKey : EmailRequest := ⟨"nokey", "s1", "t1", [recA], []⟩

/-- Database in which the only row with the requested service id belongs
to a different user. -/
def dbOtherOwner : DB :=
  { dbW with services := [⟨"s1", "u2", "smtp.example.org", 587, "mail@example.org", "pw", ""⟩] }

/-- Database that already holds the history row for the witness triple. -/
def dbDup : DB := { dbW with emails := [⟨"u1", "s1", "t1", "alice@example.org", "Alice", ""⟩] }

/-- Per-recipient environments in which the first recipient's SMTP call
fails and every other recipient's calls succeed. -/
def envOfW : Nat → Env := fun i => if i == 0 then { envOk with smtpErr := some "boom" } else envOk

/-- Request fixture with two recipients. -/
def reqTwo : EmailRequest := ⟨"key1", "s1", "t1", [recA, recB], []⟩

/-! ## Helper lemmas about finishSend -/

/-- finishSend on a failed preparation returns the unchanged database and
reports the error with no external write. -/
theorem finishSend_error (env : Env) (db : DB) (req : EmailRequest) (rec : Recipient)
    (ps : Params) (e : String) (u : Option String) (sv : Option Service)
    (tp : Option TemplateRow) (rc : Option RenderCtx) :
    finishSend env db req rec ⟨ps, .error e, u, sv, tp, rc⟩ =
      { db := db, params := ps, err := some e, userID := u, serviceUsed := sv,
        templateUsed := tp, renderCtx := rc, smtpCalls := 0, quotaWrite := none,
        logIssued := none, dedupKey := none, emailInsertIssued := none } := rfl

/-- Fields of finishSend on a successful preparation that are the same in
every branch of the dispatch-and-persist phase. -/
theorem finishSend_ok_obs (env : Env) (db : DB) (req : EmailRequest) (rec : Recipient)
    (ps : Params) (ok : PrepOk) (u : Option String) (sv : Option Service)
    (tp : Option TemplateRow) (rc : Option RenderCtx) :
    (finishSend env db req rec ⟨ps, .ok ok, u, sv, tp, rc⟩).renderCtx = some ok.ctx ∧
    (finishSend env db req rec ⟨ps, .ok ok, u, sv, tp, rc⟩).params = ps ∧
    (finishSend env db req rec ⟨ps, .ok ok, u, sv, tp, rc⟩).userID = some ok.userID ∧
    (finishSend env db req rec ⟨ps, .ok ok, u, sv, tp, rc⟩).serviceUsed = some ok.service ∧
    (finishSend env db req rec ⟨ps, .ok ok, u, sv, tp, rc⟩).templateUsed = some ok.tmplRow ∧
    (finishSend env db req rec ⟨ps, .ok ok, u, sv, tp, rc⟩).smtpCalls = 1 := by
  unfold finishSend
  cases env.smtpErr <;> cases env.quotaUpdateErr <;> cases env.emailSelectErr <;>
    cases hf : db.emails.filter (fun m =>
      m.user_id == ok.userID && m.email_address == rec.email_address &&
        m.template_id == req.template_id) <;>
    simp [hf]

/-- What a successful preparation guarantees: the identity resolved from
the user key, the quota read from the first matching profile row and
positive, the service and template rows found under the resolved user,
and the origin admitted. -/
theorem prepare_ok_spec (env : Env) (profiles : List ProfileRow) (services : List Service)
    (templates : List TemplateRow) (req : EmailRequest) (rec : Recipient) (origin : String)
    (ok : PrepOk)
    (h : (prepare env profiles services templates req rec origin).outcome = .ok ok) :
    getUserIDFromKey env.profileKeyErr profiles req.user_key = .ok ok.userID ∧
    userQuota profiles ok.userID = ok.rateLimit ∧
    0 < ok.rateLimit ∧
    (∃ vs, services.filter (fun s =>
      s.service_id == req.service_id && s.user_id == ok.userID) = ok.service :: vs) ∧
    (∃ ts, templates.filter (fun t =>
      t.template_id == req.template_id && t.user_id == ok.userID) = ok.tmplRow :: ts) ∧
    originCheck ok.service.cors_origin origin = none := by
  unfold prepare at h
  repeat' split at h
  all_goals simp_all
  split at h
  · simp_all
  · simp at h
    subst h
    refine ⟨rfl, ?_, ?_, ?_, ?_, ?_⟩ <;> simp_all [userQuota]

/-- The head of a filtered list is a member satisfying the predicate. -/
theorem filter_head_mem {A : Type} (p : A → Bool) (l : List A) (a : A) (rest : List A)
    (h : l.filter p = a :: rest) : a ∈ l ∧ p a = true := by
  have ha : a ∈ l.filter p := by
    rw [h]
    exact List.mem_cons_self a rest
  exact List.mem_filter.mp ha

/-- The service row the pipeline selects comes from the services table
and carries exactly the requested service id and the filtering user id. -/
theorem service_head_facts (services : List Service) (sid uid : String) (s : Service)
    (tl : List Service)
    (h : services.filter (fun x => x.service_id == sid && x.user_id == uid) = s :: tl) :
    uid = s.user_id ∧ s.service_id = sid ∧ s ∈ services := by
  obtain ⟨hm, hp⟩ := filter_head_mem _ _ _ _ h
  simp at hp
  exact ⟨hp.2.symm, hp.1, hm⟩

/-- The template row the pipeline selects comes from the templates table
and carries exactly the requested template id and the filtering user id. -/
theorem template_head_facts (templates : List TemplateRow) (tid uid : String) (t : TemplateRow)
    (tl : List TemplateRow)
    (h : templates.filter (fun x => x.template_id == tid && x.user_id == uid) = t :: tl) :
    uid = t.user_id ∧ t.template_id = tid ∧ t ∈ templates := by
  obtain ⟨hm, hp⟩ := filter_head_mem _ _ _ _ h
  simp at hp
  exact ⟨hp.2.symm, hp.1, hm⟩

/-- Observations valid on every exit of the preparation phase: a selected
service or template row is owned by the resolved user and carries the
requested id, and the resolved user is exactly the result of the user-key
lookup. -/
theorem prepare_observations (env : Env) (profiles : List ProfileRow) (services : List Service)
    (templates : List TemplateRow) (req : EmailRequest) (rec : Recipient) (origin : String) :
    (∀ s, (prepare env profiles services templates req rec origin).serviceUsed = some s →
      (prepare env profiles services templates req rec origin).userID = some s.user_id ∧
      s.service_id = req.service_id ∧ s ∈ services) ∧
    (∀ t, (prepare env profiles services templates req rec origin).templateUsed = some t →
      (prepare env profiles services templates req rec origin).userID = some t.user_id ∧
      t.template_id = req.template_id ∧ t ∈ templates) ∧
    ((prepare env profiles services templates req rec origin).userID =
      (match getUserIDFromKey env.profileKeyErr profiles req.user_key with
        | .ok u => some u
        | .error _ => none)) := by
  unfold prepare
  repeat' split
  all_goals simp_all
  all_goals try split
  all_goals try simp_all
  all_goals
    first
      | exact service_head_facts _ _ _ _ _ (by assumption)
      | exact template_head_facts _ _ _ _ _ (by assumption)
      | exact ⟨service_head_facts _ _ _ _ _ (by assumption),
          template_head_facts _ _ _ _ _ (by assumption)⟩

/-- Appending one history row changes the count of a triple by one when
the row carries that triple and leaves it unchanged otherwise. -/
theorem matchCount_append_singleton (l : List EmailEntry) (ee : EmailEntry)
    (uid em tid : String) :
    matchCount (l ++ [ee]) uid em tid =
      matchCount l uid em tid +
        (if ee.user_id == uid && ee.email_address == em && ee.template_id == tid then 1
         else 0) := by
  by_cases h : (ee.user_id == uid && ee.email_address == em && ee.template_id == tid) = true
  · simp [matchCount, List.filter_append, h]
  · simp [matchCount, List.filter_append, h]

/-- After the replace branch of setParam, the key maps to the new value. -/
theorem find_map_replace (ps : Params) (k : String) (v : ParamValue)
    (h : ps.any (fun p => p.1 == k) = true) :
    (ps.map (fun p => if p.1 == k then (k, v) else p)).find? (fun p => p.1 == k) =
      some (k, v) := by
  induction ps with
  | nil => simp at h
  | cons a as ih =>
    by_cases ha : (a.1 == k) = true
    · simp [List.find?, ha]
    · have has : as.any (fun p => p.1 == k) = true := by
        simpa [ha] using h
      simpa [List.find?, ha] using ih has

/-- After the append branch of setParam, the key maps to the new value. -/
theorem find_append_missing (ps : Params) (k : String) (v : ParamValue)
    (h : ps.any (fun p => p.1 == k) = false) :
    (ps ++ [(k, v)]).find? (fun p => p.1 == k) = some (k, v) := by
  induction ps with
  | nil => simp [List.find?]
  | cons a as ih =>
    have ha : (a.1 == k) = false := by
      by_contra hc
      simp at h
      exact absurd (h.1) (by simpa using hc)
    have has : as.any (fun p => p.1 == k) = false := by
      simp at h
      simp [List.any_eq_false]
      exact h.2
    simpa [List.find?, ha] using ih has

/-- Go map write then read: the written key returns the written value. -/
theorem getParam_setParam (ps : Params) (k : String) (v : ParamValue) :
    getParam (setParam ps k v) k = some v := by
  unfold setParam getParam
  by_cases h : ps.any (fun p => p.1 == k) = true
  · rw [if_pos h, find_map_replace ps k v h]
    rfl
  · have hfalse : ps.any (fun p => p.1 == k) = false := by
      revert h
      cases ps.any (fun p => p.1 == k) <;> simp
    rw [if_neg h, find_append_missing ps k v hfalse]
    rfl

/-- The date step is idempotent: running it on its own output changes
nothing, so a recipient that already normalised the shared parameter map
does not change what later recipients compute. -/
theorem dateStep_idem (ps r : Params) (h : dateStep ps = .ok r) : dateStep r = .ok r := by
  unfold dateStep at h ⊢
  cases hg : getParam ps "date" with
  | none =>
    rw [hg] at h
    simp at h
    subst h
    rw [hg]
  | some pv =>
    cases pv with
    | str raw =>
      rw [hg] at h
      cases hp : rfc3339Parse raw with
      | none => simp [hp] at h
      | some t =>
        simp [hp] at h
        subst h
        rw [getParam_setParam]
    | time t =>
      rw [hg] at h
      simp at h
      subst h
      rw [hg]
    | other =>
      rw [hg] at h
      simp at h
      subst h
      rw [hg]

/-- One error string is collected per failed recipient, every recipient
of the request is processed, and the collected error counts match the
failed runs, for the sequentialised fan-out. -/
theorem runRecipients_spec (envOf : Nat → Env) (req : EmailRequest) (origin : String)
    (rs : List Recipient) :
    ∀ (i : Nat) (db : DB) (ps : Params),
      ((runRecipients envOf req origin rs i db ps).2.2.map Prod.fst = rs) ∧
      ((recipientErrors (runRecipients envOf req origin rs i db ps).2.2).length =
        ((runRecipients envOf req origin rs i db ps).2.2.filter
          (fun pr => pr.2.isSome)).length) ∧
      (∀ pr ∈ (runRecipients envOf req origin rs i db ps).2.2, ∀ e, pr.2 = some e →
        ("error sending to " ++ pr.1.email_address ++ ": " ++ e) ∈
          recipientErrors (runRecipients envOf req origin rs i db ps).2.2) := by
  induction rs with
  | nil =>
    intro i db ps
    simp [runRecipients, recipientErrors]
  | cons r rest ih =>
    intro i db ps
    simp only [runRecipients]
    obtain ⟨ih1, ih2, ih3⟩ := ih (i + 1)
      (sendSingleEmail (envOf i) db { req with parameters := ps } r origin).db
      (sendSingleEmail (envOf i) db { req with parameters := ps } r origin).params
    cases ho : (sendSingleEmail (envOf i) db { req with parameters := ps } r origin).err with
    | none =>
      refine ⟨?_, ?_, ?_⟩
      · simp [ho, ih1]
      · simp [recipientErrors, ho]
        simpa [recipientErrors] using ih2
      · intro pr hpr e he
        simp [ho] at hpr
        rcases hpr with hpr | hpr
        · subst hpr
          simp at he
        · have hmem := ih3 pr hpr e he
          simpa [recipientErrors, ho] using hmem
    | some msg =>
      refine ⟨?_, ?_, ?_⟩
      · simp [ho, ih1]
      · simp [recipientErrors, ho]
        simpa [recipientErrors] using ih2
      · intro pr hpr e he
        simp [ho] at hpr
        rcases hpr with hpr | hpr
        · subst hpr
          simp at he
          subst he
          simp [recipientErrors, ho]
        · have hmem := ih3 pr hpr e he
          simp [recipientErrors, ho]
          right
          simpa [recipientErrors] using hmem

/-! ## Claim theorems -/

/-- C1: the claim says a quota-update failure after a successful SMTP
dispatch is only logged and sendSingleEmail still returns nil.  In the
code the update error is assigned to the same err variable the later
checks read, so the call logs a failed entry and returns an error: at
this input the SMTP call is made and succeeds, yet the result is an
email-sending error carrying the update failure. -/
theorem c1_quota_update_failure_flips_outcome :
    envQuotaFail.smtpErr = none ∧
    (sendSingleEmail envQuotaFail dbW reqW recA "").smtpCalls = 1 ∧
    (sendSingleEmail envQuotaFail dbW reqW recA "").err =
      some "email sending error: db update failed" ∧
    (sendSingleEmail envQuotaFail dbW reqW recA "").logIssued =
      some ⟨"u1", "s1", "t1", "failed", "db update failed"⟩ ∧
    (sendSingleEmail envQuotaFail dbW reqW recA "").db.profiles = dbW.profiles := by
  refine ⟨rfl, ?_, ?_, ?_, ?_⟩ <;> decide

/-- C5 counterexample: with an empty allow-list and an origin containing
an ASCII control character, the code denies (the origin is parsed before
the empty-allow-list short circuit) while the reference function of the
claim admits (empty allow-list always admits). -/
theorem c5_counterexample :
    (originCheck "" "http://a\x00b").isNone = false ∧
    originRefLiteral "" "http://a\x00b" = true := by
  exact ⟨by decide, by decide⟩

/-- C5 (amended): the origin-admission decision of the code equals the
reference function once the malformed-origin denial is checked before
the empty-allow-list admission. -/
theorem c5_origin_decision_matches_reference (corsOrigin origin : String) :
    (originCheck corsOrigin origin).isNone = originRefAmended corsOrigin origin := by
  unfold originCheck originRefAmended originMatchesList refEntryMatch
  cases parseURL origin with
  | none => rfl
  | some po =>
    by_cases h : corsOrigin == ""
    · simp [h]
    · simp only [h, if_false, Bool.false_eq_true]
      cases hm : (splitOnComma corsOrigin.toList).any (fun entry =>
          match parseURL (String.mk (trimL entry)) with
          | none => false
          | some pa =>
            pa.scheme == po.scheme &&
              (po.host == pa.host || endsWithL po.host.toList ('.' :: pa.host.toList))) <;>
        simp [hm]

/-- C5 witness: the amended equivalence at a concrete allow-list and a
concrete subdomain origin. -/
theorem c5_witness :
    (originCheck "https://example.com" "https://app.example.com").isNone =
      originRefAmended "https://example.com" "https://app.example.com" ∧
    (originCheck "https://example.com" "https://app.example.com").isNone = true :=
  ⟨c5_origin_decision_matches_reference "https://example.com" "https://app.example.com",
    by decide⟩

/-- C10: when the profile lookup returns at least one row, identity
resolution returns the user id of the first row, whatever further rows
match the same user key. -/
theorem c10_first_profile_row_wins (profiles : List ProfileRow) (k : String)
    (p : ProfileRow) (l : List ProfileRow)
    (h : profiles.filter (fun q => q.user_key == k) = p :: l) :
    getUserIDFromKey none profiles k = .ok p.user_id := by
  unfold getUserIDFromKey
  rw [h]

/-- C10 witness: two profile rows share the user key; resolution
succeeds with the first row's user id and reports no ambiguity. -/
theorem c10_witness :
    getUserIDFromKey none [⟨"u1", "dupkey", 5⟩, ⟨"u2", "dupkey", 7⟩] "dupkey" =
      .ok "u1" :=
  c10_first_profile_row_wins [⟨"u1", "dupkey", 5⟩, ⟨"u2", "dupkey", 7⟩] "dupkey"
    ⟨"u1", "dupkey", 5⟩ [⟨"u2", "dupkey", 7⟩] (by decide)

/-- C4: when the quota read at admission is not positive, the pipeline
stops with the rate-limit error before anything else happens: no SMTP
call, no write of any kind, the database untouched. -/
theorem c4_zero_quota_blocks_before_send (env : Env) (db : DB) (req : EmailRequest)
    (rec : Recipient) (origin : String) (p : ProfileRow) (l : List ProfileRow)
    (q : ProfileRow) (m : List ProfileRow)
    (h1 : env.profileKeyErr = none)
    (h2 : db.profiles.filter (fun r => r.user_key == req.user_key) = p :: l)
    (h3 : env.rateLimitErr = none)
    (h4 : db.profiles.filter (fun r => r.user_id == p.user_id) = q :: m)
    (h5 : q.rate_limit ≤ 0) :
    (sendSingleEmail env db req rec origin).err = some "rate limit exceeded" ∧
    (sendSingleEmail env db req rec origin).smtpCalls = 0 ∧
    (sendSingleEmail env db req rec origin).db = db ∧
    (sendSingleEmail env db req rec origin).quotaWrite = none ∧
    (sendSingleEmail env db req rec origin).logIssued = none ∧
    (sendSingleEmail env db req rec origin).emailInsertIssued = none := by
  have hu : getUserIDFromKey env.profileKeyErr db.profiles req.user_key = .ok p.user_id := by
    unfold getUserIDFromKey
    rw [h1, h2]
  unfold sendSingleEmail prepare
  simp [hu, h3, h4, finishSend, h5]

/-- C4 witness: a user whose stored quota is 0 is refused with the
rate-limit error and the state is unchanged. -/
theorem c4_witness :
    (sendSingleEmail envOk { dbW with profiles := [⟨"u1", "key1", 0⟩] } reqW recA "").err =
      some "rate limit exceeded" ∧
    (sendSingleEmail envOk { dbW with profiles := [⟨"u1", "key1", 0⟩] } reqW recA "").smtpCalls = 0 ∧
    (sendSingleEmail envOk { dbW with profiles := [⟨"u1", "key1", 0⟩] } reqW recA "").db =
      { dbW with profiles := [⟨"u1", "key1", 0⟩] } := by
  have h := c4_zero_quota_blocks_before_send envOk { dbW with profiles := [⟨"u1", "key1", 0⟩] }
    reqW recA "" ⟨"u1", "key1", 0⟩ [] ⟨"u1", "key1", 0⟩ [] rfl (by decide) rfl (by decide)
    (by decide)
  exact ⟨h.1, h.2.1, h.2.2.1⟩

/-- C9: a string parameter named date is parsed as RFC 3339 before the
template is fetched and rendered; the parsed value, under the original
key, is what the render context receives, and the formatDate helper
prints it in the YYYY-MM-DD HH:MM:SS layout, so the claimed example
produces exactly the claimed text.  An unparseable date string stops the
recipient with the invalid-date error before any SMTP attempt and leaves
the database untouched. -/
theorem c9_date_parameter_handling (env : Env) (db : DB) (req : EmailRequest)
    (rec : Recipient) (origin : String) (p : ProfileRow) (l : List ProfileRow)
    (q : ProfileRow) (m : List ProfileRow) (sv : Service) (vs : List Service)
    (h1 : env.profileKeyErr = none)
    (h2 : db.profiles.filter (fun r => r.user_key == req.user_key) = p :: l)
    (h3 : env.rateLimitErr = none)
    (h4 : db.profiles.filter (fun r => r.user_id == p.user_id) = q :: m)
    (h5 : ¬q.rate_limit ≤ 0)
    (h6 : env.serviceErr = none)
    (h7 : db.services.filter (fun s =>
      s.service_id == req.service_id && s.user_id == p.user_id) = sv :: vs)
    (h8 : originCheck sv.cors_origin origin = none) :
    rfc3339Parse "2023-12-31T00:00:00Z" = some ⟨2023, 12, 31, 0, 0, 0, 0⟩ ∧
    formatDate ⟨2023, 12, 31, 0, 0, 0, 0⟩ = "2023-12-31 00:00:00" ∧
    (∀ raw, getParam req.parameters "date" = some (ParamValue.str raw) →
      rfc3339Parse raw = none →
        (sendSingleEmail env db req rec origin).err =
          some ("invalid date format: parsing time " ++ raw) ∧
        (sendSingleEmail env db req rec origin).smtpCalls = 0 ∧
        (sendSingleEmail env db req rec origin).db = db) ∧
    (∀ raw t tp ts, getParam req.parameters "date" = some (ParamValue.str raw) →
      rfc3339Parse raw = some t →
      env.templateErr = none →
      db.templates.filter (fun tr =>
        tr.template_id == req.template_id && tr.user_id == p.user_id) = tp :: ts →
      env.tmplParse tp.content = none →
        (sendSingleEmail env db req rec origin).renderCtx =
          some ⟨rec, setParam req.parameters "date" (ParamValue.time t)⟩ ∧
        (sendSingleEmail env db req rec origin).params =
          setParam req.parameters "date" (ParamValue.time t)) := by
  have hu : getUserIDFromKey env.profileKeyErr db.profiles req.user_key = .ok p.user_id := by
    unfold getUserIDFromKey
    rw [h1, h2]
  refine ⟨by decide, by decide, ?_, ?_⟩
  · intro raw hdate hparse
    have hds : dateStep req.parameters = .error ("invalid date format: parsing time " ++ raw) := by
      unfold dateStep
      rw [hdate]
      simp [hparse]
    unfold sendSingleEmail prepare
    simp [hu, h3, h4, h5, h6, h7, h8, hds, finishSend]
  · intro raw t tp ts hdate hparse htenv htpl hcompile
    have hds : dateStep req.parameters = .ok (setParam req.parameters "date" (ParamValue.time t)) := by
      unfold dateStep
      rw [hdate]
      simp [hparse]
    unfold sendSingleEmail prepare
    simp only [hu, h3, h4, h6, h7, h8, hds, htenv, htpl, hcompile, if_neg h5]
    cases env.tmplExec tp.content ⟨rec, setParam req.parameters "date" (ParamValue.time t)⟩ with
    | error e => simp [finishSend_error]
    | ok body =>
      have hobs := finishSend_ok_obs env db req rec
        (setParam req.parameters "date" (ParamValue.time t))
        ⟨p.user_id, q.rate_limit, sv, tp, body,
          ⟨rec, setParam req.parameters "date" (ParamValue.time t)⟩⟩
        (some p.user_id) (some sv) (some tp)
        (some ⟨rec, setParam req.parameters "date" (ParamValue.time t)⟩)
      exact ⟨hobs.1, hobs.2.1⟩

/-- C9 witness: the bad date string stops the pipeline with the
invalid-date error and no SMTP call, and the example date string reaches
the renderer as the parsed structured value. -/
theorem c9_witness :
    (sendSingleEmail envOk dbW reqBadDate recA "").err =
      some "invalid date format: parsing time nope" ∧
    (sendSingleEmail envOk dbW reqBadDate recA "").smtpCalls = 0 ∧
    (sendSingleEmail envOk dbW reqGoodDate recA "").renderCtx =
      some ⟨recA, [("date", ParamValue.time ⟨2023, 12, 31, 0, 0, 0, 0⟩)]⟩ := by
  have hbad := c9_date_parameter_handling envOk dbW reqBadDate recA ""
    ⟨"u1", "key1", 5⟩ [] ⟨"u1", "key1", 5⟩ [] svc1 []
    rfl (by decide) rfl (by decide) (by decide) rfl (by decide) (by decide)
  have hgood := c9_date_parameter_handling envOk dbW reqGoodDate recA ""
    ⟨"u1", "key1", 5⟩ [] ⟨"u1", "key1", 5⟩ [] svc1 []
    rfl (by decide) rfl (by decide) (by decide) rfl (by decide) (by decide)
  have h3 := hbad.2.2.1 "nope" rfl (by decide)
  have h4 := (hgood.2.2.2 "2023-12-31T00:00:00Z" ⟨2023, 12, 31, 0, 0, 0, 0⟩ tpl1 []
    rfl (by decide) rfl (by decide) rfl).1
  exact ⟨h3.1, h3.2.1, h4⟩

/-- C2 counterexample: a recipient whose pipeline terminates on the
invalid-user-key path gets no log entry at all — the claimed
log-on-every-terminal-path fails, the logs table is untouched. -/
theorem c2_counterexample :
    (sendSingleEmail envOk dbW reqBadKey recA "").err.isSome = true ∧
    (sendSingleEmail envOk dbW reqBadKey recA "").logIssued = none ∧
    (sendSingleEmail envOk dbW reqBadKey recA "").db.logs = dbW.logs := by
  refine ⟨?_, ?_, ?_⟩ <;> decide

/-- C2 (amended): exactly one log insert is issued if and only if the
pipeline reaches the SMTP dispatch step, and its status matches the
terminal outcome (success exactly when the call returns nil); failures at
earlier pipeline steps issue no log insert, and the logs table receives
exactly the issued entry when the insert call succeeds. -/
theorem c2_log_written_iff_smtp_reached (env : Env) (db : DB) (req : EmailRequest)
    (rec : Recipient) (origin : String) :
    ((sendSingleEmail env db req rec origin).logIssued.map (fun le => le.status) =
      (if (sendSingleEmail env db req rec origin).smtpCalls = 0 then none
       else if (sendSingleEmail env db req rec origin).err = none then some "success"
       else some "failed")) ∧
    ((sendSingleEmail env db req rec origin).db.logs =
      db.logs ++ (match env.logInsertErr with
        | none => (sendSingleEmail env db req rec origin).logIssued.toList
        | some _ => [])) ∧
    ((sendSingleEmail env db req rec origin).smtpCalls = 0 ∨
      (sendSingleEmail env db req rec origin).smtpCalls = 1) := by
  unfold sendSingleEmail
  rcases prepare env db.profiles db.services db.templates req rec origin with
    ⟨ps, oc, u, sv, tp, rc⟩
  cases oc with
  | error e =>
    rw [finishSend_error]
    cases env.logInsertErr <;> simp
  | ok ok =>
    unfold finishSend
    cases env.smtpErr <;> cases env.quotaUpdateErr <;> cases env.logInsertErr <;>
      cases env.emailSelectErr <;>
      cases hf : db.emails.filter (fun m =>
        m.user_id == ok.userID && m.email_address == rec.email_address &&
          m.template_id == req.template_id) <;>
      simp [hf]

/-- C2 witness: on a successful concrete send exactly the success log
entry is appended. -/
theorem c2_witness :
    (sendSingleEmail envOk dbW reqW recA "").db.logs =
      dbW.logs ++ [⟨"u1", "s1", "t1", "success", "Email sent to alice@example.org"⟩] := by
  have h := (c2_log_written_iff_smtp_reached envOk dbW reqW recA "").2.1
  exact h.trans (by decide)

/-- C3: a quota-decrement write is issued exactly when the SMTP dispatch
was attempted and succeeded; the persisted value is the quota read at
admission minus one, for the resolved user; when the update call is
rejected or the dispatch failed, the stored profiles are unchanged. -/
theorem c3_quota_decrement_iff_smtp_success (env : Env) (db : DB) (req : EmailRequest)
    (rec : Recipient) (origin : String) :
    ((sendSingleEmail env db req rec origin).quotaWrite.isSome ↔
      ((sendSingleEmail env db req rec origin).smtpCalls = 1 ∧ env.smtpErr = none)) ∧
    (match (sendSingleEmail env db req rec origin).quotaWrite, env.quotaUpdateErr with
      | some (uid, v), none =>
        (sendSingleEmail env db req rec origin).db.profiles =
          db.profiles.map (fun pr =>
            if pr.user_id == uid then { pr with rate_limit := v } else pr)
      | _, _ => (sendSingleEmail env db req rec origin).db.profiles = db.profiles) ∧
    (∀ uid v, (sendSingleEmail env db req rec origin).quotaWrite = some (uid, v) →
      (sendSingleEmail env db req rec origin).userID = some uid ∧
      v = userQuota db.profiles uid - 1) := by
  unfold sendSingleEmail
  cases hpre : prepare env db.profiles db.services db.templates req rec origin with
  | mk ps oc u sv tp rc =>
    cases oc with
    | error e =>
      rw [finishSend_error]
      cases env.quotaUpdateErr <;> simp
    | ok ok =>
      have hspec := prepare_ok_spec env db.profiles db.services db.templates req rec origin ok
        (by rw [hpre])
      unfold finishSend
      cases env.smtpErr <;> cases env.quotaUpdateErr <;> cases env.emailSelectErr <;>
        cases hf : db.emails.filter (fun m =>
          m.user_id == ok.userID && m.email_address == rec.email_address &&
            m.template_id == req.template_id) <;>
        simp [hf, hspec.2.1]

/-- C3 witness: on a successful concrete send the write is issued for the
resolved user with the read quota minus one. -/
theorem c3_witness :
    (sendSingleEmail envOk dbW reqW recA "").userID = some "u1" ∧
    (4 : Int) = userQuota dbW.profiles "u1" - 1 ∧
    (sendSingleEmail envOk dbW reqW recA "").quotaWrite.isSome = true := by
  have h := c3_quota_decrement_iff_smtp_success envOk dbW reqW recA ""
  have h3 := h.2.2 "u1" 4 (by decide)
  exact ⟨h3.1, h3.2, by decide⟩

/-- C7: the service and template lookups are filtered by the identity
resolved from the user key: any selected row is owned by the resolved
user and carries the requested id, the resolved identity is exactly the
user-key lookup result, and when every row with the requested id belongs
to another user the recipient fails with the invalid-service or
invalid-template error. -/
theorem c7_lookups_scoped_to_resolved_user (env : Env) (db : DB) (req : EmailRequest)
    (rec : Recipient) (origin : String) :
    (∀ s, (sendSingleEmail env db req rec origin).serviceUsed = some s →
      (sendSingleEmail env db req rec origin).userID = some s.user_id ∧
      s.service_id = req.service_id ∧ s ∈ db.services) ∧
    (∀ t, (sendSingleEmail env db req rec origin).templateUsed = some t →
      (sendSingleEmail env db req rec origin).userID = some t.user_id ∧
      t.template_id = req.template_id ∧ t ∈ db.templates) ∧
    ((sendSingleEmail env db req rec origin).userID =
      (match getUserIDFromKey env.profileKeyErr db.profiles req.user_key with
        | .ok u => some u
        | .error _ => none)) ∧
    (∀ p l q m, env.profileKeyErr = none →
      db.profiles.filter (fun r => r.user_key == req.user_key) = p :: l →
      env.rateLimitErr = none →
      db.profiles.filter (fun r => r.user_id == p.user_id) = q :: m →
      ¬q.rate_limit ≤ 0 →
      env.serviceErr = none →
      db.services.filter (fun s =>
        s.service_id == req.service_id && s.user_id == p.user_id) = [] →
      (sendSingleEmail env db req rec origin).err = some "invalid service_id") ∧
    (∀ p l q m sv vs ps2, env.profileKeyErr = none →
      db.profiles.filter (fun r => r.user_key == req.user_key) = p :: l →
      env.rateLimitErr = none →
      db.profiles.filter (fun r => r.user_id == p.user_id) = q :: m →
      ¬q.rate_limit ≤ 0 →
      env.serviceErr = none →
      db.services.filter (fun s =>
        s.service_id == req.service_id && s.user_id == p.user_id) = sv :: vs →
      originCheck sv.cors_origin origin = none →
      dateStep req.parameters = .ok ps2 →
      env.templateErr = none →
      db.templates.filter (fun t =>
        t.template_id == req.template_id && t.user_id == p.user_id) = [] →
      (sendSingleEmail env db req rec origin).err = some "invalid template_id") := by
  refine ⟨?_, ?_, ?_, ?_, ?_⟩
  · have hobs := (prepare_observations env db.profiles db.services db.templates req rec origin).1
    unfold sendSingleEmail
    cases hpre : prepare env db.profiles db.services db.templates req rec origin with
    | mk ps oc u sv tp rc =>
      rw [hpre] at hobs
      cases oc with
      | error e =>
        rw [finishSend_error]
        intro s hs
        simpa using hobs s (by simpa using hs)
      | ok ok =>
        have hspec := prepare_ok_spec env db.profiles db.services db.templates req rec origin ok
          (by rw [hpre])
        obtain ⟨vs, hsv⟩ := hspec.2.2.2.1
        have hfacts := service_head_facts _ _ _ _ _ hsv
        have hobs6 := finishSend_ok_obs env db req rec ps ok u sv tp rc
        intro s hs
        rw [hobs6.2.2.2.1] at hs
        obtain rfl : ok.service = s := by injection hs
        exact ⟨by rw [hobs6.2.2.1, hfacts.1], hfacts.2.1, hfacts.2.2⟩
  · have hobs := (prepare_observations env db.profiles db.services db.templates req rec origin).2.1
    unfold sendSingleEmail
    cases hpre : prepare env db.profiles db.services db.templates req rec origin with
    | mk ps oc u sv tp rc =>
      rw [hpre] at hobs
      cases oc with
      | error e =>
        rw [finishSend_error]
        intro t ht
        simpa using hobs t (by simpa using ht)
      | ok ok =>
        have hspec := prepare_ok_spec env db.profiles db.services db.templates req rec origin ok
          (by rw [hpre])
        obtain ⟨ts, htp⟩ := hspec.2.2.2.2.1
        have hfacts := template_head_facts _ _ _ _ _ htp
        have hobs6 := finishSend_ok_obs env db req rec ps ok u sv tp rc
        intro t ht
        rw [hobs6.2.2.2.2.1] at ht
        obtain rfl : ok.tmplRow = t := by injection ht
        exact ⟨by rw [hobs6.2.2.1, hfacts.1], hfacts.2.1, hfacts.2.2⟩
  · have hobs := (prepare_observations env db.profiles db.services db.templates req rec origin).2.2
    unfold sendSingleEmail
    cases hpre : prepare env db.profiles db.services db.templates req rec origin with
    | mk ps oc u sv tp rc =>
      rw [hpre] at hobs
      cases oc with
      | error e =>
        rw [finishSend_error]
        exact hobs
      | ok ok =>
        have hspec := prepare_ok_spec env db.profiles db.services db.templates req rec origin ok
          (by rw [hpre])
        have hobs6 := finishSend_ok_obs env db req rec ps ok u sv tp rc
        rw [hobs6.2.2.1, hspec.1]
  · intro p l q m h1 h2 h3 h4 h5 h6 h7
    have hu : getUserIDFromKey env.profileKeyErr db.profiles req.user_key = .ok p.user_id := by
      unfold getUserIDFromKey
      rw [h1, h2]
    unfold sendSingleEmail prepare
    simp [hu, h3, h4, h5, h6, h7, finishSend]
  · intro p l q m sv vs ps2 h1 h2 h3 h4 h5 h6 h7 h8 h9 h10 h11
    have hu : getUserIDFromKey env.profileKeyErr db.profiles req.user_key = .ok p.user_id := by
      unfold getUserIDFromKey
      rw [h1, h2]
    unfold sendSingleEmail prepare
    simp [hu, h3, h4, h5, h6, h7, h8, h9, h10, h11, finishSend]

/-- C7 witness: a service row with the requested id but another owner is
never used; the request fails with the invalid-service error. -/
theorem c7_witness :
    (sendSingleEmail envOk dbOtherOwner reqW recA "").err = some "invalid service_id" := by
  have h := (c7_lookups_scoped_to_resolved_user envOk dbOtherOwner reqW recA "").2.2.2.1
  exact h ⟨"u1", "key1", 5⟩ [] ⟨"u1", "key1", 5⟩ [] rfl (by decide) rfl (by decide) (by decide)
    rfl (by decide)

/-- C8: the email-history dedup check is issued exactly on the success
path, after the SMTP dispatch succeeded, for the (resolved user,
recipient address, template) triple; a history row is inserted only when
no matching row exists (so a table with at most one row per triple keeps
at most one row per triple, and a repeat send inserts nothing); off the
success path the history table is never touched; and the content of the
history table has no influence on the send outcome or on whether SMTP is
attempted. -/
theorem c8_history_dedup (env : Env) (db : DB) (req : EmailRequest) (rec : Recipient)
    (origin : String) :
    ((sendSingleEmail env db req rec origin).dedupKey.isSome ↔
      (sendSingleEmail env db req rec origin).err = none) ∧
    (∀ uid em tid, (sendSingleEmail env db req rec origin).dedupKey = some (uid, em, tid) →
      (sendSingleEmail env db req rec origin).userID = some uid ∧
      em = rec.email_address ∧ tid = req.template_id ∧
      (sendSingleEmail env db req rec origin).smtpCalls = 1 ∧ env.smtpErr = none ∧
      (env.emailSelectErr = none →
        (db.emails.filter (fun m =>
            m.user_id == uid && m.email_address == em && m.template_id == tid) = [] →
          (sendSingleEmail env db req rec origin).emailInsertIssued =
            some ⟨uid, req.service_id, tid, em, rec.name, ""⟩ ∧
          (env.emailInsertErr = none →
            (sendSingleEmail env db req rec origin).db.emails =
              db.emails ++ [⟨uid, req.service_id, tid, em, rec.name, ""⟩])) ∧
        (db.emails.filter (fun m =>
            m.user_id == uid && m.email_address == em && m.template_id == tid) ≠ [] →
          (sendSingleEmail env db req rec origin).emailInsertIssued = none ∧
          (sendSingleEmail env db req rec origin).db.emails = db.emails))) ∧
    ((sendSingleEmail env db req rec origin).dedupKey = none →
      (sendSingleEmail env db req rec origin).db.emails = db.emails) ∧
    (∀ uid em tid, matchCount db.emails uid em tid ≤ 1 →
      matchCount (sendSingleEmail env db req rec origin).db.emails uid em tid ≤ 1) ∧
    (∀ E, (sendSingleEmail env { db with emails := E } req rec origin).err =
        (sendSingleEmail env db req rec origin).err ∧
      (sendSingleEmail env { db with emails := E } req rec origin).smtpCalls =
        (sendSingleEmail env db req rec origin).smtpCalls) := by
  refine ⟨?_, ?_, ?_, ?_, ?_⟩
  case _ =>
    unfold sendSingleEmail
    rcases prepare env db.profiles db.services db.templates req rec origin with
      ⟨ps, oc, u, sv, tp, rc⟩
    cases oc with
    | error e => rw [finishSend_error]; simp
    | ok ok =>
      unfold finishSend
      cases env.smtpErr <;> cases env.quotaUpdateErr <;> cases env.emailSelectErr <;>
        cases hf : db.emails.filter (fun m =>
          m.user_id == ok.userID && m.email_address == rec.email_address &&
            m.template_id == req.template_id) <;>
        simp [hf]
  case _ =>
    unfold sendSingleEmail
    rcases prepare env db.profiles db.services db.templates req rec origin with
      ⟨ps, oc, u, sv, tp, rc⟩
    cases oc with
    | error e => rw [finishSend_error]; simp
    | ok ok =>
      unfold finishSend
      cases env.smtpErr <;> cases env.quotaUpdateErr <;> cases env.emailSelectErr <;>
        cases env.emailInsertErr <;>
        cases hf : db.emails.filter (fun m =>
          m.user_id == ok.userID && m.email_address == rec.email_address &&
            m.template_id == req.template_id) <;>
        simp [hf]
      all_goals
        first
          | (have hfa := hf; simp at hfa; exact hfa)
          | (obtain ⟨hm, hp⟩ := filter_head_mem _ _ _ _ hf; simp at hp;
              exact ⟨_, hm, hp.1.1, hp.1.2, hp.2⟩)
  case _ =>
    unfold sendSingleEmail
    rcases prepare env db.profiles db.services db.templates req rec origin with
      ⟨ps, oc, u, sv, tp, rc⟩
    cases oc with
    | error e => rw [finishSend_error]; simp
    | ok ok =>
      unfold finishSend
      cases env.smtpErr <;> cases env.quotaUpdateErr <;> cases env.emailSelectErr <;>
        cases hf : db.emails.filter (fun m =>
          m.user_id == ok.userID && m.email_address == rec.email_address &&
            m.template_id == req.template_id) <;>
        simp [hf]
  case _ =>
    unfold sendSingleEmail
    rcases prepare env db.profiles db.services db.templates req rec origin with
      ⟨ps, oc, u, sv, tp, rc⟩
    cases oc with
    | error e =>
      rw [finishSend_error]
      intro uid em tid hle
      exact hle
    | ok ok =>
      unfold finishSend
      cases env.smtpErr with
      | some e => intro uid em tid hle; simpa using hle
      | none =>
        cases env.quotaUpdateErr with
        | some ue => intro uid em tid hle; simpa using hle
        | none =>
          cases env.emailSelectErr with
          | some se => intro uid em tid hle; simpa using hle
          | none =>
            cases hf : db.emails.filter (fun m =>
                m.user_id == ok.userID && m.email_address == rec.email_address &&
                  m.template_id == req.template_id) with
            | cons x xs => intro uid em tid hle; simpa [hf] using hle
            | nil =>
              cases env.emailInsertErr with
              | some ie => intro uid em tid hle; simpa [hf] using hle
              | none =>
                intro uid em tid hle
                have key : matchCount (db.emails ++ [(⟨ok.userID, req.service_id,
                    req.template_id, rec.email_address, rec.name, ""⟩ : EmailEntry)])
                    uid em tid ≤ 1 := by
                  rw [matchCount_append_singleton]
                  split
                  next hk =>
                    simp at hk
                    obtain ⟨⟨h1, h2⟩, h3⟩ := hk
                    subst h1
                    subst h2
                    subst h3
                    have h0 : matchCount db.emails ok.userID rec.email_address
                        req.template_id = 0 := by
                      simp [matchCount, hf]
                    omega
                  next hk => omega
                simpa [hf] using key
  case _ =>
    intro E
    unfold sendSingleEmail
    have hsame : prepare env ({ db with emails := E } : DB).profiles
        ({ db with emails := E } : DB).services ({ db with emails := E } : DB).templates
        req rec origin = prepare env db.profiles db.services db.templates req rec origin := rfl
    rw [hsame]
    rcases prepare env db.profiles db.services db.templates req rec origin with
      ⟨ps, oc, u, sv, tp, rc⟩
    cases oc with
    | error e => rw [finishSend_error, finishSend_error]; exact ⟨rfl, rfl⟩
    | ok ok =>
      unfold finishSend
      cases env.smtpErr <;> cases env.quotaUpdateErr <;> cases env.emailSelectErr <;>
        cases hf1 : E.filter (fun m =>
          m.user_id == ok.userID && m.email_address == rec.email_address &&
            m.template_id == req.template_id) <;>
        cases hf2 : db.emails.filter (fun m =>
          m.user_id == ok.userID && m.email_address == rec.email_address &&
            m.template_id == req.template_id) <;>
        simp [hf1, hf2]

/-- C8 witness: a repeat send of the same (user, recipient, template)
triple succeeds again but issues no second history insert and leaves the
history table unchanged. -/
theorem c8_witness :
    (sendSingleEmail envOk dbDup reqW recA "").err = none ∧
    (sendSingleEmail envOk dbDup reqW recA "").emailInsertIssued = none ∧
    (sendSingleEmail envOk dbDup reqW recA "").db.emails = dbDup.emails := by
  have h := c8_history_dedup envOk dbDup reqW recA ""
  have h2 := h.2.1 "u1" "alice@example.org" "t1" (by decide)
  have h3 := (h2.2.2.2.2.2 rfl).2 (by decide)
  exact ⟨by decide, h3.1, h3.2⟩

/-- C6: the aggregate response reports success exactly when every
recipient's run returned nil; the outcome list covers the recipients of
the request one for one; there is exactly one error string per failed
recipient, carrying that recipient's address; a failed run leaves every
table a sibling recipient reads or writes unchanged; and the one shared
mutation a successful date step performs is idempotent, so it cannot
change what later recipients compute. -/
theorem c6_aggregate_success_and_isolation :
    (∀ (envOf : Nat → Env) (db : DB) (req : EmailRequest) (origin : String),
      ((SendEmailsHandler envOf db req origin).outs.map Prod.fst = req.recipients) ∧
      ((SendEmailsHandler envOf db req origin).success = true ↔
        (SendEmailsHandler envOf db req origin).errors = []) ∧
      ((SendEmailsHandler envOf db req origin).success = true ↔
        ∀ pr ∈ (SendEmailsHandler envOf db req origin).outs, pr.2 = none) ∧
      ((SendEmailsHandler envOf db req origin).errors.length =
        ((SendEmailsHandler envOf db req origin).outs.filter
          (fun pr => pr.2.isSome)).length) ∧
      (∀ pr ∈ (SendEmailsHandler envOf db req origin).outs, ∀ e, pr.2 = some e →
        ("error sending to " ++ pr.1.email_address ++ ": " ++ e) ∈
          (SendEmailsHandler envOf db req origin).errors)) ∧
    (∀ (env : Env) (db : DB) (req : EmailRequest) (rec : Recipient) (origin : String),
      (sendSingleEmail env db req rec origin).err.isSome = true →
        (sendSingleEmail env db req rec origin).db.profiles = db.profiles ∧
        (sendSingleEmail env db req rec origin).db.services = db.services ∧
        (sendSingleEmail env db req rec origin).db.templates = db.templates ∧
        (sendSingleEmail env db req rec origin).db.emails = db.emails) ∧
    (∀ ps r, dateStep ps = .ok r → dateStep r = .ok r) := by
  refine ⟨?_, ?_, dateStep_idem⟩
  · intro envOf db req origin
    obtain ⟨h1, h2, h3⟩ := runRecipients_spec envOf req origin req.recipients 0 db
      req.parameters
    have key : (recipientErrors
        (runRecipients envOf req origin req.recipients 0 db req.parameters).2.2).isEmpty =
          true ↔
        ∀ pr ∈ (runRecipients envOf req origin req.recipients 0 db req.parameters).2.2,
          pr.2 = none := by
      rw [List.isEmpty_iff]
      constructor
      · intro hnil pr hpr
        have h0 : ((runRecipients envOf req origin req.recipients 0 db
            req.parameters).2.2.filter (fun pr => pr.2.isSome)).length = 0 := by
          rw [← h2, hnil]
          rfl
        have hfil := List.length_eq_zero.mp h0
        have hns := List.filter_eq_nil_iff.mp hfil pr hpr
        cases hpr2 : pr.2 with
        | none => rfl
        | some e =>
          rw [hpr2] at hns
          simp at hns
      · intro hall
        have hfil : (runRecipients envOf req origin req.recipients 0 db
            req.parameters).2.2.filter (fun pr => pr.2.isSome) = [] := by
          apply List.filter_eq_nil_iff.mpr
          intro pr hpr
          rw [hall pr hpr]
          simp
        have h0 : (recipientErrors
            (runRecipients envOf req origin req.recipients 0 db req.parameters).2.2).length =
              0 := by
          rw [h2, hfil]
          rfl
        exact List.length_eq_zero.mp h0
    exact ⟨h1, List.isEmpty_iff, key, h2, h3⟩
  · intro env db req rec origin
    unfold sendSingleEmail
    rcases prepare env db.profiles db.services db.templates req rec origin with
      ⟨ps, oc, u, sv, tp, rc⟩
    cases oc with
    | error e =>
      rw [finishSend_error]
      intro _
      exact ⟨rfl, rfl, rfl, rfl⟩
    | ok ok =>
      unfold finishSend
      cases env.smtpErr <;> cases env.quotaUpdateErr <;> cases env.emailSelectErr <;>
        cases hf : db.emails.filter (fun m =>
          m.user_id == ok.userID && m.email_address == rec.email_address &&
            m.template_id == req.template_id) <;>
        simp [hf]

/-- C6 witness: with recipient one failing at SMTP and recipient two
succeeding, both recipients are processed, the response is a failure
carrying exactly the first recipient's error string, and the failed run
left the shared tables unchanged. -/
theorem c6_witness :
    (SendEmailsHandler envOfW dbW reqTwo "").outs.map Prod.fst = reqTwo.recipients ∧
    (SendEmailsHandler envOfW dbW reqTwo "").success = false ∧
    ("error sending to alice@example.org: email sending error: boom") ∈
      (SendEmailsHandler envOfW dbW reqTwo "").errors ∧
    (sendSingleEmail { envOk with smtpErr := some "boom" } dbW reqTwo recA "").db.profiles =
      dbW.profiles := by
  have h := c6_aggregate_success_and_isolation
  have hagg := h.1 envOfW dbW reqTwo ""
  have hiso := (h.2.1 { envOk with smtpErr := some "boom" } dbW reqTwo recA "" (by decide)).1
  refine ⟨hagg.1, by decide, ?_, hiso⟩
  have hmem := hagg.2.2.2.2 (recA, some "email sending error: boom") (by decide)
    "email sending error: boom" rfl
  simpa using hmem

end NextInBox
